import Mathlib

/-!
Verification of the EzLib book-crawler service (`src/services/crawler`).

The Python source is shallowly embedded: pure functions become Lean
functions over `String` / `List` / `ℚ` (Python floats are modelled as
rationals — every constant in the scored sums is decimal, so the
arithmetic of interest is exact); functions that raise become
`Except String`; the orchestrator's exception plumbing is embedded as
explicit outcome data threaded through the same `try/except` structure as
the code.  Character-level operations (`upper`, `\d`, `\s`, `\w`,
`strip`) are embedded at ASCII fidelity, matching the character set of
the ISBN domain.
-/

namespace Crawler

/-! ## ISBN codec (`src/utils/isbn_utils.py`) -/

/-- Python `\s` (ASCII subset): the characters removed by `clean_isbn`
besides the hyphen. -/
def pySpace (c : Char) : Bool :=
  c = ' ' || c = '\t' || c = '\n' || c = '\x0d' || c = '\x0b' || c = '\x0c'

/-- Python `\d` at ASCII fidelity: a decimal digit. -/
def pyIsDigit (c : Char) : Bool :=
  '0' ≤ c && c ≤ '9'

/-- Python `int(ch)` for a single digit character. -/
def digitVal (c : Char) : Nat :=
  c.toNat - 48

/-- Python `str(n)` for a check digit in 0..9. -/
def digitToChar (n : Nat) : Char :=
  match n with
  | 0 => '0' | 1 => '1' | 2 => '2' | 3 => '3' | 4 => '4'
  | 5 => '5' | 6 => '6' | 7 => '7' | 8 => '8' | 9 => '9'
  | _ => '?'

/-- Character kept by `clean_isbn` (not a hyphen, not whitespace). -/
def cleanKeep (c : Char) : Bool :=
  !(c = '-' || pySpace c)

/-- Core of `clean_isbn`: `re.sub(r"[-\s]", "", isbn.upper())` on the
character list. -/
def cleanChars (l : List Char) : List Char :=
  (l.map Char.toUpper).filter cleanKeep

/-- `clean_isbn`: remove hyphens and whitespace, uppercase. -/
def clean_isbn (isbn : String) : String :=
  String.mk (cleanChars isbn.data)

/-- ISBN-10 checksum loop: `checksum += int(char) * (10 - i)` over the
first nine characters, starting at index `i`. -/
def checksum10Aux (i : Nat) : List Char → Nat
  | [] => 0
  | c :: cs => digitVal c * (10 - i) + checksum10Aux (i + 1) cs

/-- ISBN-13 checksum loop: weight 1 on even indices, 3 on odd ones. -/
def checksum13Aux (i : Nat) : List Char → Nat
  | [] => 0
  | c :: cs => digitVal c * (if i % 2 = 0 then 1 else 3) + checksum13Aux (i + 1) cs

/-- Value of the last ISBN-10 character: 10 for `'X'`, else its digit value. -/
def isbn10CheckVal (c : Char) : Nat :=
  if c = 'X' then 10 else digitVal c

/-- Body of `validate_isbn_10` on the already-cleaned character list:
exactly 10 characters matching `^\d{9}[\dX]$`, and weighted checksum
divisible by 11. -/
def validate10Core (c : List Char) : Bool :=
  c.length == 10 &&
  ((c.take 9).all pyIsDigit && (pyIsDigit (c.getLastD ' ') || c.getLastD ' ' == 'X')) &&
  (checksum10Aux 0 (c.take 9) + isbn10CheckVal (c.getLastD ' ')) % 11 == 0

/-- `validate_isbn_10`: clean, then run the format/checksum check. -/
def validate_isbn_10 (isbn : String) : Bool :=
  validate10Core (clean_isbn isbn).data

/-- Body of `validate_isbn_13` on the already-cleaned character list:
exactly 13 digits, prefix 978/979, and the recomputed check digit equals
the last digit. -/
def validate13Core (c : List Char) : Bool :=
  c.length == 13 &&
  c.all pyIsDigit &&
  (c.take 3 == ['9', '7', '8'] || c.take 3 == ['9', '7', '9']) &&
  (10 - checksum13Aux 0 (c.take 12) % 10) % 10 == digitVal (c.getLastD ' ')

/-- `validate_isbn_13`: clean, then run the format/checksum check. -/
def validate_isbn_13 (isbn : String) : Bool :=
  validate13Core (clean_isbn isbn).data

/-- Digit construction of `isbn_10_to_13`: prepend 978 to the first nine
digits and append the recomputed ISBN-13 check digit. -/
def isbn10to13Digits (c : List Char) : List Char :=
  let isbn12 := '9' :: '7' :: '8' :: c.take 9
  isbn12 ++ [digitToChar ((10 - checksum13Aux 0 isbn12 % 10) % 10)]

/-- `isbn_10_to_13`: raises `ValidationError` on an invalid ISBN-10,
otherwise converts. -/
def isbn_10_to_13 (isbn10 : String) : Except String String :=
  let c := (clean_isbn isbn10).data
  if validate_isbn_10 (String.mk c) then
    .ok (String.mk (isbn10to13Digits c))
  else
    .error "Invalid ISBN-10 format"

/-- Digit construction of `isbn_13_to_10`: strip the 978 prefix and the
check digit, append the recomputed mod-11 check character
(0 → `'0'`, 1 → `'X'`, else `11 - r`). -/
def isbn13to10Digits (c : List Char) : List Char :=
  let isbn9 := (c.drop 3).take 9
  let r := checksum10Aux 0 isbn9 % 11
  isbn9 ++ [if r = 0 then '0' else if r = 1 then 'X' else digitToChar (11 - r)]

/-- `isbn_13_to_10`: raises `ValidationError` on an invalid ISBN-13,
returns `none` for a non-978 prefix, otherwise converts. -/
def isbn_13_to_10 (isbn13 : String) : Except String (Option String) :=
  let c := (clean_isbn isbn13).data
  if validate_isbn_13 (String.mk c) then
    if c.take 3 == ['9', '7', '8'] then
      .ok (some (String.mk (isbn13to10Digits c)))
    else
      .ok none
  else
    .error "Invalid ISBN-13 format"

/-- `normalize_isbn`: clean, then dispatch on the cleaned length. -/
def normalize_isbn (isbn : String) : Except String String :=
  let c := (clean_isbn isbn).data
  if c.isEmpty then .error "Empty ISBN"
  else if c.length = 10 then
    if validate_isbn_10 (String.mk c) then isbn_10_to_13 (String.mk c)
    else .error "Invalid ISBN-10"
  else if c.length = 13 then
    if validate_isbn_13 (String.mk c) then .ok (String.mk c)
    else .error "Invalid ISBN-13"
  else .error "ISBN must be 10 or 13 digits"

example : validate_isbn_13 "978-0-13-468599-1" = true := by decide
example : normalize_isbn "978-0-13-468599-1" = .ok "9780134685991" := by rfl
example : isbn_10_to_13 "0134685997" = .ok "9780134685991" := by rfl
example : isbn_13_to_10 "9780134685991" = .ok (some "0134685997") := by rfl
example : validate_isbn_10 "0-321-12521-5" = true := by decide

/-! ### Character-level facts -/

lemma pyIsDigit_iff {c : Char} : pyIsDigit c = true ↔ 48 ≤ c.toNat ∧ c.toNat ≤ 57 := by
  simp only [pyIsDigit, Bool.and_eq_true, decide_eq_true_eq]
  exact ⟨fun ⟨h1, h2⟩ => ⟨h1, h2⟩, fun ⟨h1, h2⟩ => ⟨h1, h2⟩⟩

lemma char_eq_of_toNat {c d : Char} (h : c.toNat = d.toNat) : c = d :=
  Char.ext (UInt32.ext h)

/-- A character matching `\d` is one of the ten ASCII digits. -/
lemma digit_cases {c : Char} (h : pyIsDigit c = true) :
    c = '0' ∨ c = '1' ∨ c = '2' ∨ c = '3' ∨ c = '4' ∨ c = '5' ∨ c = '6' ∨ c = '7' ∨
    c = '8' ∨ c = '9' := by
  obtain ⟨h1, h2⟩ := pyIsDigit_iff.mp h
  have hval : c.toNat = 48 ∨ c.toNat = 49 ∨ c.toNat = 50 ∨ c.toNat = 51 ∨
      c.toNat = 52 ∨ c.toNat = 53 ∨ c.toNat = 54 ∨ c.toNat = 55 ∨
      c.toNat = 56 ∨ c.toNat = 57 := by omega
  rcases hval with h | h | h | h | h | h | h | h | h | h
  · exact Or.inl (char_eq_of_toNat h)
  · exact Or.inr (Or.inl (char_eq_of_toNat h))
  · exact Or.inr (Or.inr (Or.inl (char_eq_of_toNat h)))
  · exact Or.inr (Or.inr (Or.inr (Or.inl (char_eq_of_toNat h))))
  · exact Or.inr (Or.inr (Or.inr (Or.inr (Or.inl (char_eq_of_toNat h)))))
  · exact Or.inr (Or.inr (Or.inr (Or.inr (Or.inr (Or.inl (char_eq_of_toNat h))))))
  · exact Or.inr (Or.inr (Or.inr (Or.inr (Or.inr (Or.inr (Or.inl (char_eq_of_toNat h)))))))
  · exact Or.inr (Or.inr (Or.inr (Or.inr (Or.inr (Or.inr (Or.inr
      (Or.inl (char_eq_of_toNat h))))))))
  · exact Or.inr (Or.inr (Or.inr (Or.inr (Or.inr (Or.inr (Or.inr (Or.inr
      (Or.inl (char_eq_of_toNat h)))))))))
  · exact Or.inr (Or.inr (Or.inr (Or.inr (Or.inr (Or.inr (Or.inr (Or.inr
      (Or.inr (char_eq_of_toNat h)))))))))

lemma toUpper_digit {c : Char} (h : pyIsDigit c = true) : c.toUpper = c := by
  rcases digit_cases h with rfl | rfl | rfl | rfl | rfl | rfl | rfl | rfl | rfl | rfl <;> decide

lemma cleanKeep_digit {c : Char} (h : pyIsDigit c = true) : cleanKeep c = true := by
  rcases digit_cases h with rfl | rfl | rfl | rfl | rfl | rfl | rfl | rfl | rfl | rfl <;> decide

lemma digit_ne_X {c : Char} (h : pyIsDigit c = true) : c ≠ 'X' := by
  rcases digit_cases h with rfl | rfl | rfl | rfl | rfl | rfl | rfl | rfl | rfl | rfl <;> decide

lemma digitVal_le_nine {c : Char} (h : pyIsDigit c = true) : digitVal c ≤ 9 := by
  rcases digit_cases h with rfl | rfl | rfl | rfl | rfl | rfl | rfl | rfl | rfl | rfl <;> decide

lemma digitToChar_digitVal {c : Char} (h : pyIsDigit c = true) :
    digitToChar (digitVal c) = c := by
  rcases digit_cases h with rfl | rfl | rfl | rfl | rfl | rfl | rfl | rfl | rfl | rfl <;> decide

lemma pyIsDigit_digitToChar {n : Nat} (h : n ≤ 9) : pyIsDigit (digitToChar n) = true := by
  interval_cases n <;> decide

lemma digitVal_digitToChar {n : Nat} (h : n ≤ 9) : digitVal (digitToChar n) = n := by
  interval_cases n <;> decide

lemma toNat_ofNat_small {n : Nat} (h : n < 0xd800) : (Char.ofNat n).toNat = n := by
  have hv : n.isValidChar := Or.inl h
  simp only [Char.ofNat, hv, dite_true, Char.ofNatAux, Char.toNat, UInt32.toNat]
  rfl

lemma toUpper_toUpper (c : Char) : c.toUpper.toUpper = c.toUpper := by
  unfold Char.toUpper
  by_cases h : c.toNat ≥ 97 ∧ c.toNat ≤ 122
  · rw [if_pos h]
    have h2 : (Char.ofNat (c.toNat - 32)).toNat = c.toNat - 32 :=
      toNat_ofNat_small (by omega)
    rw [if_neg]
    rw [h2]
    omega
  · rw [if_neg h, if_neg h]

/-! ### Facts about `cleanChars` -/

/-- Cleaning is idempotent at the character-list level. -/
lemma cleanChars_idem (l : List Char) : cleanChars (cleanChars l) = cleanChars l := by
  unfold cleanChars
  have hmap : ((l.map Char.toUpper).filter cleanKeep).map Char.toUpper
      = (l.map Char.toUpper).filter cleanKeep := by
    have hid : ((l.map Char.toUpper).filter cleanKeep).map Char.toUpper
        = ((l.map Char.toUpper).filter cleanKeep).map id := by
      apply List.map_congr_left
      intro a ha
      have ha2 : a ∈ l.map Char.toUpper := List.mem_of_mem_filter ha
      obtain ⟨b, _, rfl⟩ := List.mem_map.mp ha2
      exact toUpper_toUpper b
    rw [hid, List.map_id]
  rw [hmap, List.filter_filter]
  apply List.filter_congr
  intro a _
  rw [Bool.and_self]

/-- A list of digit/`'X'` characters is a fixpoint of cleaning. -/
lemma cleanChars_fix {l : List Char} (h : ∀ c ∈ l, pyIsDigit c = true ∨ c = 'X') :
    cleanChars l = l := by
  induction l with
  | nil => rfl
  | cons c cs ih =>
    have hc := h c (List.mem_cons_self c cs)
    have hup : c.toUpper = c := by
      rcases hc with hd | rfl
      · exact toUpper_digit hd
      · decide
    have hkeep : cleanKeep c = true := by
      rcases hc with hd | rfl
      · exact cleanKeep_digit hd
      · decide
    have ihr := ih (fun d hd => h d (List.mem_cons_of_mem c hd))
    unfold cleanChars at ihr ⊢
    simp only [List.map_cons, hup, List.filter_cons, hkeep, if_true]
    rw [ihr]

/-! ### The ISBN-10 / ISBN-13 round trip -/

/-- Unfolding of a successful ISBN-10 validation: the cleaned list is
nine digits followed by a digit-or-`'X'` check character satisfying the
mod-11 checksum. -/
lemma validate10Core_parts {c : List Char} (h : validate10Core c = true) :
    ∃ f x, c = f ++ [x] ∧ f.length = 9 ∧ (∀ d ∈ f, pyIsDigit d = true) ∧
      (pyIsDigit x = true ∨ x = 'X') ∧
      (checksum10Aux 0 f + isbn10CheckVal x) % 11 = 0 := by
  unfold validate10Core at h
  simp only [Bool.and_eq_true, beq_iff_eq, Bool.or_eq_true, List.all_eq_true] at h
  obtain ⟨⟨hlen, hall, hlast⟩, hchk⟩ := h
  have hne : c ≠ [] := by
    intro he
    rw [he] at hlen
    simp at hlen
  obtain ⟨f, x, hc, hf9⟩ : ∃ f x, c = f ++ [x] ∧ f.length = 9 := by
    refine ⟨c.dropLast, c.getLast hne, (List.dropLast_append_getLast hne).symm, ?_⟩
    rw [List.length_dropLast, hlen]
  have htake : c.take 9 = f := by
    rw [hc, ← hf9]
    exact List.take_left f [x]
  have hgl : c.getLastD ' ' = x := by
    rw [hc]
    exact List.getLastD_concat _ _ _
  rw [htake] at hall
  rw [hgl] at hlast
  rw [htake, hgl] at hchk
  exact ⟨f, x, hc, hf9, hall, hlast, hchk⟩

lemma validate10_mk_clean (l : List Char) :
    validate_isbn_10 (String.mk (cleanChars l)) = validate10Core (cleanChars l) := by
  show validate10Core (cleanChars (cleanChars l)) = validate10Core (cleanChars l)
  rw [cleanChars_idem]

lemma validate13_mk_clean (l : List Char) :
    validate_isbn_13 (String.mk (cleanChars l)) = validate13Core (cleanChars l) := by
  show validate13Core (cleanChars (cleanChars l)) = validate13Core (cleanChars l)
  rw [cleanChars_idem]

lemma isbn10to13Digits_eq {f : List Char} (x : Char) (hf9 : f.length = 9) :
    isbn10to13Digits (f ++ [x]) = ('9' :: '7' :: '8' :: f) ++
      [digitToChar ((10 - checksum13Aux 0 ('9' :: '7' :: '8' :: f) % 10) % 10)] := by
  unfold isbn10to13Digits
  have h9 : (f ++ [x]).take 9 = f := by
    rw [← hf9]
    exact List.take_left f [x]
  rw [h9]

/-- Every character of the constructed ISBN-13 is a digit. -/
lemma isbn10to13_all_digits {f : List Char} (hdig : ∀ d ∈ f, pyIsDigit d = true)
    {k : Nat} (hk : k ≤ 9) (d : Char)
    (hd : d ∈ ('9' :: '7' :: '8' :: f) ++ [digitToChar k]) : pyIsDigit d = true := by
  simp only [List.mem_append, List.mem_cons, List.not_mem_nil, or_false] at hd
  rcases hd with (rfl | rfl | rfl | hf) | rfl
  · decide
  · decide
  · decide
  · exact hdig d hf
  · exact pyIsDigit_digitToChar hk

/-- The constructed ISBN-13 passes `validate_isbn_13`. -/
lemma validate13Core_construct {f : List Char} (hf9 : f.length = 9)
    (hdig : ∀ d ∈ f, pyIsDigit d = true) :
    validate13Core (('9' :: '7' :: '8' :: f) ++
      [digitToChar ((10 - checksum13Aux 0 ('9' :: '7' :: '8' :: f) % 10) % 10)]) = true := by
  have hk : (10 - checksum13Aux 0 ('9' :: '7' :: '8' :: f) % 10) % 10 ≤ 9 := by omega
  unfold validate13Core
  simp only [Bool.and_eq_true, beq_iff_eq, Bool.or_eq_true, List.all_eq_true]
  refine ⟨⟨⟨?_, ?_⟩, ?_⟩, ?_⟩
  · simp [hf9]
  · intro d hd
    exact isbn10to13_all_digits hdig hk d hd
  · left
    have h3 : (('9' :: '7' :: '8' :: f) ++
        [digitToChar ((10 - checksum13Aux 0 ('9' :: '7' :: '8' :: f) % 10) % 10)]).take 3
        = ['9', '7', '8'] := by
      simp
    rw [h3]
  · have h12 : (('9' :: '7' :: '8' :: f) ++
        [digitToChar ((10 - checksum13Aux 0 ('9' :: '7' :: '8' :: f) % 10) % 10)]).take 12
        = '9' :: '7' :: '8' :: f := by
      have : ('9' :: '7' :: '8' :: f).length = 12 := by simp [hf9]
      rw [← this]
      exact List.take_left _ _
    rw [h12, List.getLastD_concat, digitVal_digitToChar hk]

/-- The recomputed ISBN-10 check character equals the original one. -/
lemma check_char_eq {f : List Char} {x : Char}
    (hx : pyIsDigit x = true ∨ x = 'X')
    (hchk : (checksum10Aux 0 f + isbn10CheckVal x) % 11 = 0) :
    (if checksum10Aux 0 f % 11 = 0 then '0'
     else if checksum10Aux 0 f % 11 = 1 then 'X'
     else digitToChar (11 - checksum10Aux 0 f % 11)) = x := by
  rcases hx with hd | rfl
  · have hne := digit_ne_X hd
    have hv : isbn10CheckVal x = digitVal x := by
      unfold isbn10CheckVal
      rw [if_neg hne]
    rw [hv] at hchk
    have hle := digitVal_le_nine hd
    by_cases h0 : checksum10Aux 0 f % 11 = 0
    · have hz : digitVal x = 0 := by omega
      rw [if_pos h0, ← digitToChar_digitVal hd, hz]
      rfl
    · by_cases h1 : checksum10Aux 0 f % 11 = 1
      · exfalso
        omega
      · have hv11 : digitVal x = 11 - checksum10Aux 0 f % 11 := by omega
        rw [if_neg h0, if_neg h1, ← hv11, digitToChar_digitVal hd]
  · have hvX : isbn10CheckVal 'X' = 10 := rfl
    rw [hvX] at hchk
    have h1 : checksum10Aux 0 f % 11 = 1 := by omega
    rw [if_neg (by omega), if_pos h1]

/-- Converting the constructed ISBN-13 back yields the original ten
characters. -/
lemma isbn13to10Digits_roundtrip {f : List Char} {x : Char} (hf9 : f.length = 9)
    (hx : pyIsDigit x = true ∨ x = 'X')
    (hchk : (checksum10Aux 0 f + isbn10CheckVal x) % 11 = 0) {k : Nat} :
    isbn13to10Digits (('9' :: '7' :: '8' :: f) ++ [digitToChar k]) = f ++ [x] := by
  simp only [isbn13to10Digits]
  have hdrop : ((('9' :: '7' :: '8' :: f) ++ [digitToChar k]).drop 3) = f ++ [digitToChar k] := by
    simp
  have htake : (f ++ [digitToChar k]).take 9 = f := by
    rw [← hf9]
    exact List.take_left f _
  rw [hdrop, htake]
  rw [check_char_eq hx hchk]

lemma isbn_10_to_13_eq_of_valid {s : String} (h : validate_isbn_10 s = true) :
    isbn_10_to_13 s = .ok (String.mk (isbn10to13Digits (cleanChars s.data))) := by
  have hmk : validate_isbn_10 (String.mk (cleanChars s.data)) = true := by
    rw [validate10_mk_clean]
    exact h
  show (if validate_isbn_10 (String.mk (cleanChars s.data)) then
      Except.ok (String.mk (isbn10to13Digits (cleanChars s.data)))
    else Except.error "Invalid ISBN-10 format") = _
  rw [if_pos hmk]

lemma isbn_13_to_10_of_construct {f : List Char} (hf9 : f.length = 9)
    (hdig : ∀ d ∈ f, pyIsDigit d = true) {x : Char}
    (hx : pyIsDigit x = true ∨ x = 'X')
    (hchk : (checksum10Aux 0 f + isbn10CheckVal x) % 11 = 0) :
    isbn_13_to_10 (String.mk (('9' :: '7' :: '8' :: f) ++
      [digitToChar ((10 - checksum13Aux 0 ('9' :: '7' :: '8' :: f) % 10) % 10)]))
      = .ok (some (String.mk (f ++ [x]))) := by
  have hk : (10 - checksum13Aux 0 ('9' :: '7' :: '8' :: f) % 10) % 10 ≤ 9 := by omega
  have hfix : cleanChars (('9' :: '7' :: '8' :: f) ++
      [digitToChar ((10 - checksum13Aux 0 ('9' :: '7' :: '8' :: f) % 10) % 10)])
      = ('9' :: '7' :: '8' :: f) ++
      [digitToChar ((10 - checksum13Aux 0 ('9' :: '7' :: '8' :: f) % 10) % 10)] :=
    cleanChars_fix (fun d hd => Or.inl (isbn10to13_all_digits hdig hk d hd))
  have hval : validate_isbn_13 (String.mk (cleanChars (('9' :: '7' :: '8' :: f) ++
      [digitToChar ((10 - checksum13Aux 0 ('9' :: '7' :: '8' :: f) % 10) % 10)]))) = true := by
    rw [validate13_mk_clean, hfix]
    exact validate13Core_construct hf9 hdig
  rw [hfix] at hval
  show (if validate_isbn_13 (String.mk (cleanChars (('9' :: '7' :: '8' :: f) ++
      [digitToChar ((10 - checksum13Aux 0 ('9' :: '7' :: '8' :: f) % 10) % 10)]))) then
      (if (cleanChars (('9' :: '7' :: '8' :: f) ++
          [digitToChar ((10 - checksum13Aux 0 ('9' :: '7' :: '8' :: f) % 10) % 10)])).take 3
          == ['9', '7', '8'] then
        Except.ok (some (String.mk (isbn13to10Digits (cleanChars (('9' :: '7' :: '8' :: f) ++
          [digitToChar ((10 - checksum13Aux 0 ('9' :: '7' :: '8' :: f) % 10) % 10)])))))
      else Except.ok none)
    else Except.error "Invalid ISBN-13 format") = _
  rw [hfix, if_pos hval]
  have h3 : ((('9' :: '7' :: '8' :: f) ++
      [digitToChar ((10 - checksum13Aux 0 ('9' :: '7' :: '8' :: f) % 10) % 10)]).take 3)
      = ['9', '7', '8'] := by
    simp
  rw [h3]
  simp only [beq_self_eq_true, if_true]
  rw [isbn13to10Digits_roundtrip hf9 hx hchk]

/-- C6: for every string passing ISBN-10 validation, converting to
ISBN-13 and back yields `clean_isbn` of the input; for every string
failing validation, `isbn_10_to_13` fails with a `ValidationError`
instead of producing an output.  (`src/utils/isbn_utils.py`,
`isbn_10_to_13` / `isbn_13_to_10` / `clean_isbn`.) -/
theorem isbn10_roundtrip_c6 (s : String) :
    (validate_isbn_10 s = true →
      ∃ t, isbn_10_to_13 s = .ok t ∧ isbn_13_to_10 t = .ok (some (clean_isbn s))) ∧
    (validate_isbn_10 s = false →
      isbn_10_to_13 s = .error "Invalid ISBN-10 format") := by
  constructor
  · intro h
    have hcore : validate10Core (cleanChars s.data) = true := h
    obtain ⟨f, x, hc, hf9, hdig, hx, hchk⟩ := validate10Core_parts hcore
    refine ⟨_, isbn_10_to_13_eq_of_valid h, ?_⟩
    have heq : isbn10to13Digits (cleanChars s.data) = ('9' :: '7' :: '8' :: f) ++
        [digitToChar ((10 - checksum13Aux 0 ('9' :: '7' :: '8' :: f) % 10) % 10)] := by
      rw [hc]
      exact isbn10to13Digits_eq x hf9
    rw [heq, isbn_13_to_10_of_construct hf9 hdig hx hchk]
    show Except.ok (some (String.mk (f ++ [x]))) = Except.ok (some (String.mk (cleanChars s.data)))
    rw [hc]
  · intro h
    have hmk : validate_isbn_10 (String.mk (cleanChars s.data)) = false := by
      rw [validate10_mk_clean]
      exact h
    show (if validate_isbn_10 (String.mk (cleanChars s.data)) then
        Except.ok (String.mk (isbn10to13Digits (cleanChars s.data)))
      else Except.error "Invalid ISBN-10 format") = _
    rw [if_neg (by simp [hmk])]

/-- Witness for C6 at the spec's concrete scenario `0134685997` and an
invalid-checksum variant `0134685996`. -/
theorem isbn10_roundtrip_c6_witness :
    (∃ t, isbn_10_to_13 "0134685997" = .ok t ∧
      isbn_13_to_10 t = .ok (some (clean_isbn "0134685997"))) ∧
    isbn_10_to_13 "0134685996" = .error "Invalid ISBN-10 format" :=
  ⟨(isbn10_roundtrip_c6 "0134685997").1 (by decide),
   (isbn10_roundtrip_c6 "0134685996").2 (by decide)⟩

/-! ### Idempotence of `normalize_isbn` -/

lemma validate13Core_parts {c : List Char} (h : validate13Core c = true) :
    c.length = 13 ∧ ∀ d ∈ c, pyIsDigit d = true := by
  unfold validate13Core at h
  simp only [Bool.and_eq_true, beq_iff_eq, Bool.or_eq_true, List.all_eq_true] at h
  exact ⟨h.1.1.1, h.1.1.2⟩

/-- `normalize_isbn` on a cleaned, valid 13-digit string returns the
string itself. -/
lemma normalize_isbn_of_13 {l : List Char} (hfix : cleanChars l = l)
    (hval : validate13Core l = true) :
    normalize_isbn (String.mk l) = .ok (String.mk l) := by
  obtain ⟨hlen, _⟩ := validate13Core_parts hval
  have hne : l ≠ [] := by
    intro he
    rw [he] at hlen
    simp at hlen
  show (if (cleanChars l).isEmpty then Except.error "Empty ISBN"
    else if (cleanChars l).length = 10 then
      (if validate_isbn_10 (String.mk (cleanChars l)) then
        isbn_10_to_13 (String.mk (cleanChars l))
      else Except.error "Invalid ISBN-10")
    else if (cleanChars l).length = 13 then
      (if validate_isbn_13 (String.mk (cleanChars l)) then Except.ok (String.mk (cleanChars l))
      else Except.error "Invalid ISBN-13")
    else Except.error "ISBN must be 10 or 13 digits") = Except.ok (String.mk l)
  rw [hfix]
  have hv13 : validate_isbn_13 (String.mk l) = true := by
    show validate13Core (cleanChars l) = true
    rw [hfix]
    exact hval
  rw [if_neg (by simp [List.isEmpty_iff, hne]), if_neg (by omega), if_pos hlen, if_pos hv13]

/-- C7: `normalize_isbn` is idempotent — whenever it succeeds, running it
again on the result succeeds with the same value.
(`src/utils/isbn_utils.py`, `normalize_isbn`.) -/
theorem normalize_idem_c7 (x y : String) (h : normalize_isbn x = .ok y) :
    normalize_isbn y = .ok y := by
  have hunf : normalize_isbn x = (if (cleanChars x.data).isEmpty then Except.error "Empty ISBN"
    else if (cleanChars x.data).length = 10 then
      (if validate_isbn_10 (String.mk (cleanChars x.data)) then
        isbn_10_to_13 (String.mk (cleanChars x.data))
      else Except.error "Invalid ISBN-10")
    else if (cleanChars x.data).length = 13 then
      (if validate_isbn_13 (String.mk (cleanChars x.data)) then
        Except.ok (String.mk (cleanChars x.data))
      else Except.error "Invalid ISBN-13")
    else Except.error "ISBN must be 10 or 13 digits") := rfl
  rw [hunf] at h
  split_ifs at h with h1 h2 h3 h4 h5
  · -- ten characters, valid ISBN-10: the result is the constructed ISBN-13
    rw [validate10_mk_clean] at h3
    obtain ⟨f, x0, hc, hf9, hdig, hx0, hchk⟩ := validate10Core_parts h3
    have h3' : validate_isbn_10 (String.mk (cleanChars x.data)) = true := by
      rw [validate10_mk_clean]
      exact h3
    have h1013 := isbn_10_to_13_eq_of_valid h3'
    rw [show (String.mk (cleanChars x.data)).data = cleanChars x.data from rfl,
      cleanChars_idem] at h1013
    rw [h1013] at h
    have hy : y = String.mk (isbn10to13Digits (cleanChars x.data)) := by
      cases h
      rfl
    subst hy
    have heq : isbn10to13Digits (cleanChars x.data) = ('9' :: '7' :: '8' :: f) ++
        [digitToChar ((10 - checksum13Aux 0 ('9' :: '7' :: '8' :: f) % 10) % 10)] := by
      rw [hc]
      exact isbn10to13Digits_eq x0 hf9
    have hk : (10 - checksum13Aux 0 ('9' :: '7' :: '8' :: f) % 10) % 10 ≤ 9 := by omega
    rw [heq]
    apply normalize_isbn_of_13
    · exact cleanChars_fix (fun d hd => Or.inl (isbn10to13_all_digits hdig hk d hd))
    · exact validate13Core_construct hf9 hdig
  · -- thirteen characters, valid ISBN-13: the result is the cleaned string
    rw [validate13_mk_clean] at h5
    have hy : y = String.mk (cleanChars x.data) := by
      cases h
      rfl
    subst hy
    apply normalize_isbn_of_13 (cleanChars_idem x.data) h5

/-- Witness for C7 at the spec's concrete scenario: a formatted ISBN-13
normalizes to `9780134685991`, which renormalizes to itself. -/
theorem normalize_idem_c7_witness :
    normalize_isbn "9780134685991" = .ok "9780134685991" :=
  normalize_idem_c7 "978-0-13-468599-1" "9780134685991" (by rfl)

/-! ## Book metadata and completeness scoring
(`src/models/database/book_metadata.py`,
`src/services/validation_service.py`) -/

/-- Python `datetime.date`. -/
structure PyDate where
  year : Int
  month : Nat
  day : Nat
deriving DecidableEq, Repr

/-- Python `str.strip()` (ASCII whitespace): drop leading and trailing
whitespace characters. -/
def pyStrip (s : String) : String :=
  String.mk (((s.data.dropWhile pySpace).reverse.dropWhile pySpace).reverse)

/-- `BookMetadata` (pydantic model).  The `enriched_at` wall-clock
timestamp is omitted: no embedded operation reads it. -/
structure BookMetadata where
  isbn_13 : String
  title : String
  subtitle : Option String := none
  authors : List String := []
  publication_date : Option PyDate := none
  publication_year : Option Int := none
  publisher : Option String := none
  publishers : List String := []
  page_count : Option Int := none
  cover_image_url : Option String := none
  description : Option String := none
  subjects : List String := []
  isbn_10 : Option String := none
  language : Option String := none
  source : String := "openlibrary"
  quality_score : Option ℚ := none
deriving DecidableEq, Repr

/-- The eight weighted fields of `calculate_completeness_score`, in the
order of the Python `field_weights` dict. -/
inductive ScoreField
  | title | authors | publicationDate | publisher | description
  | pageCount | language | coverImageUrl
deriving DecidableEq, Repr

def scoreFieldList : List ScoreField :=
  [.title, .authors, .publicationDate, .publisher, .description,
   .pageCount, .language, .coverImageUrl]

/-- The `field_weights` dict. -/
def fieldWeight : ScoreField → ℚ
  | .title => 25
  | .authors => 20
  | .publicationDate => 15
  | .publisher => 10
  | .description => 10
  | .pageCount => 8
  | .language => 7
  | .coverImageUrl => 5

/-- Truthiness-then-strip check applied to the optional string fields:
`if value:` followed by `value.strip()`. -/
def optStrCounts : Option String → Bool
  | none => false
  | some s => s ≠ "" && pyStrip s ≠ ""

/-- Whether a weighted field is counted by `calculate_completeness_score`:
`if value:` first (so `None`, `""`, `[]` and `0` are all skipped), then
the per-type rule — authors need a truthy first entry, page counts must be
positive integers, strings must be non-blank after stripping, and any
other non-`None` value (a date) counts. -/
def fieldCounts (m : BookMetadata) : ScoreField → Bool
  | .title => m.title ≠ "" && pyStrip m.title ≠ ""
  | .authors =>
    match m.authors with
    | [] => false
    | a :: _ => a ≠ ""
  | .publicationDate => m.publication_date.isSome
  | .publisher => optStrCounts m.publisher
  | .description => optStrCounts m.description
  | .pageCount =>
    match m.page_count with
    | none => false
    | some n => n ≠ 0 && 0 < n
  | .language => optStrCounts m.language
  | .coverImageUrl => optStrCounts m.cover_image_url

/-- `ValidationService.calculate_completeness_score`: weighted sum of the
counted fields, scaled by `achieved / total * 100` (total = 100). -/
def calculate_completeness_score (m : BookMetadata) : ℚ :=
  let total : ℚ := (scoreFieldList.map fieldWeight).sum
  let achieved : ℚ :=
    (scoreFieldList.map (fun f => if fieldCounts m f then fieldWeight f else 0)).sum
  if 0 < total then achieved / total * 100 else 0

/-- The metadata pair `(m1, m2)` agrees on every weighted field other
than `f` (the claim's "m2 equals m1 except for one weighted field",
restricted to the fields the score reads). -/
def sameExcept (f : ScoreField) (m1 m2 : BookMetadata) : Prop :=
  (f ≠ .title → m2.title = m1.title) ∧
  (f ≠ .authors → m2.authors = m1.authors) ∧
  (f ≠ .publicationDate → m2.publication_date = m1.publication_date) ∧
  (f ≠ .publisher → m2.publisher = m1.publisher) ∧
  (f ≠ .description → m2.description = m1.description) ∧
  (f ≠ .pageCount → m2.page_count = m1.page_count) ∧
  (f ≠ .language → m2.language = m1.language) ∧
  (f ≠ .coverImageUrl → m2.cover_image_url = m1.cover_image_url)

lemma counts_congr {f : ScoreField} {m1 m2 : BookMetadata}
    (hs : sameExcept f m1 m2) {g : ScoreField} (hne : g ≠ f) :
    fieldCounts m2 g = fieldCounts m1 g := by
  obtain ⟨ht, ha, hpd, hp, hd, hpc, hl, hc⟩ := hs
  cases g
  · simp only [fieldCounts, ht (Ne.symm hne)]
  · simp only [fieldCounts, ha (Ne.symm hne)]
  · simp only [fieldCounts, hpd (Ne.symm hne)]
  · simp only [fieldCounts, hp (Ne.symm hne)]
  · simp only [fieldCounts, hd (Ne.symm hne)]
  · simp only [fieldCounts, hpc (Ne.symm hne)]
  · simp only [fieldCounts, hl (Ne.symm hne)]
  · simp only [fieldCounts, hc (Ne.symm hne)]

lemma fieldWeight_nonneg (f : ScoreField) : 0 ≤ fieldWeight f := by
  cases f <;> norm_num [fieldWeight]

/-- The total weight is 100, so the score equals the achieved weight. -/
lemma score_eq_achieved (m : BookMetadata) :
    calculate_completeness_score m =
      (scoreFieldList.map (fun f => if fieldCounts m f then fieldWeight f else 0)).sum := by
  unfold calculate_completeness_score
  have htot : (scoreFieldList.map fieldWeight).sum = 100 := by
    norm_num [scoreFieldList, fieldWeight]
  rw [htot]
  rw [if_pos (by norm_num)]
  field_simp

/-- C8: `calculate_completeness_score` is monotone — populating one
weighted field that previously did not count cannot decrease the score.
(`src/services/validation_service.py`,
`ValidationService.calculate_completeness_score`.) -/
theorem completeness_monotone_c8 (f : ScoreField) (m1 m2 : BookMetadata)
    (hs : sameExcept f m1 m2) (h1 : fieldCounts m1 f = false)
    (h2 : fieldCounts m2 f = true) :
    calculate_completeness_score m1 ≤ calculate_completeness_score m2 := by
  rw [score_eq_achieved, score_eq_achieved]
  apply List.sum_le_sum
  intro g _
  by_cases hgf : g = f
  · subst hgf
    rw [h1, h2]
    simp only [if_true, if_false, Bool.false_eq_true]
    exact fieldWeight_nonneg g
  · rw [counts_congr hs hgf]

/-- Witness for C8: populating the description of an otherwise fixed
metadata record does not decrease the score. -/
theorem completeness_monotone_c8_witness :
    calculate_completeness_score
        { isbn_13 := "9780134685991", title := "Effective Java" } ≤
      calculate_completeness_score
        { isbn_13 := "9780134685991", title := "Effective Java",
          description := some "Programming guide" } :=
  completeness_monotone_c8 .description
    { isbn_13 := "9780134685991", title := "Effective Java" }
    { isbn_13 := "9780134685991", title := "Effective Java",
      description := some "Programming guide" }
    (by refine ⟨?_, ?_, ?_, ?_, ?_, ?_, ?_, ?_⟩ <;> intro hne <;>
      first | rfl | exact absurd rfl hne)
    (by rfl) (by rfl)

/-! ## OpenLibrary response model
(`src/models/external/openlibrary_models.py`) -/

structure OpenLibraryAuthor where
  key : Option String := none
  name : Option String := none
deriving DecidableEq, Repr

/-- `OpenLibraryBookDetails` after the pydantic `pre` parsers have run
(authors as key/name records, description flattened to a string, covers
filtered to integers). -/
structure OpenLibraryBookDetails where
  title : Option String := none
  subtitle : Option String := none
  authors : List OpenLibraryAuthor := []
  publish_date : Option String := none
  publishers : List String := []
  isbn_10 : List String := []
  isbn_13 : List String := []
  number_of_pages : Option Int := none
  covers : List Int := []
  description : Option String := none
  subjects : List String := []
  key : Option String := none
deriving DecidableEq, Repr

/-- Python truthiness of an optional string (`None` and `""` falsy). -/
def optStrTruthy : Option String → Bool
  | none => false
  | some s => s ≠ ""

/-- Python truthiness of an optional integer (`None` and `0` falsy). -/
def optIntTruthy : Option Int → Bool
  | none => false
  | some n => n ≠ 0

/-- `get_author_names`: names of the authors whose name is truthy. -/
def get_author_names (ol : OpenLibraryBookDetails) : List String :=
  ol.authors.filterMap (fun a =>
    match a.name with
    | some n => if n ≠ "" then some n else none
    | none => none)

/-- `get_cover_url`: URL built from the first cover id, if any. -/
def get_cover_url (ol : OpenLibraryBookDetails) (size : String) : Option String :=
  match ol.covers with
  | [] => none
  | cid :: _ =>
    some ("https://covers.openlibrary.org/b/id/" ++ toString cid ++ "-" ++ size ++ ".jpg")

/-- `get_primary_isbn_10`: first ISBN-10 if the list is non-empty. -/
def get_primary_isbn_10 (ol : OpenLibraryBookDetails) : Option String :=
  ol.isbn_10.head?

/-- Python `\w` at ASCII fidelity (letter, digit or underscore). -/
def pyWordChar (c : Char) : Bool :=
  pyIsDigit c || ('a' ≤ c && c ≤ 'z') || ('A' ≤ c && c ≤ 'Z') || c = '_'

/-- Match of `(1[5-9]\d\d|20\d\d|21\d\d)\b` at the head of the list. -/
def yearHere : List Char → Option Nat
  | a :: b :: c :: d :: rest =>
    if pyIsDigit a && pyIsDigit b && pyIsDigit c && pyIsDigit d
        && (match rest with | [] => true | e :: _ => !pyWordChar e) then
      let n := digitVal a * 1000 + digitVal b * 100 + digitVal c * 10 + digitVal d
      if 1500 ≤ n ∧ n ≤ 2199 then some n else none
    else none
  | _ => none

/-- Left-to-right scan for the year pattern, tracking the previous
character for the leading `\b`. -/
def findYear (prev : Option Char) : List Char → Option Nat
  | [] => none
  | c :: rest =>
    let boundary := match prev with | none => true | some p => !pyWordChar p
    if boundary then
      match yearHere (c :: rest) with
      | some n => some n
      | none => findYear (some c) rest
    else findYear (some c) rest

/-- `get_publication_year`: first `\b(1[5-9]\d\d|20\d\d|21\d\d)\b` match
in the publish-date string. -/
def get_publication_year (ol : OpenLibraryBookDetails) : Option Int :=
  match ol.publish_date with
  | none => none
  | some s => if s = "" then none else (findYear none s.data).map (fun n => (n : Int))

example : get_publication_year { publish_date := some "July 2017" } = some 2017 := by decide
example : get_publication_year { publish_date := some "21999" } = none := by decide

/-! ## `BookMetadata` construction
(`src/models/database/book_metadata.py`) -/

/-- `BookMetadata.calculate_quality_score`: fixed decimal weights summing
to 1.0, divided by the maximal score. -/
def calculate_quality_score (m : BookMetadata) : ℚ :=
  let score : ℚ :=
    (if m.title ≠ "" then (0.2 : ℚ) else 0) +
    (if m.authors ≠ [] then (0.2 : ℚ) else 0) +
    (if m.isbn_13 ≠ "" ∧ m.isbn_13.length = 13 then (0.15 : ℚ) else 0) +
    (if m.publication_date.isSome ∨ optIntTruthy m.publication_year then (0.1 : ℚ) else 0) +
    (if optStrTruthy m.publisher then (0.1 : ℚ) else 0) +
    (if optStrTruthy m.cover_image_url then (0.1 : ℚ) else 0) +
    (if optStrTruthy m.description then (0.05 : ℚ) else 0) +
    (if optIntTruthy m.page_count then (0.05 : ℚ) else 0) +
    (if m.subjects ≠ [] then (0.05 : ℚ) else 0)
  let max_score : ℚ :=
    0.2 + 0.2 + 0.15 + 0.1 + 0.1 + 0.1 + 0.05 + 0.05 + 0.05
  if 0 < max_score then score / max_score else 0

/-- `BookMetadata.get_missing_fields`, in the source's append order. -/
def get_missing_fields (m : BookMetadata) : List String :=
  (if m.title = "" ∨ m.title = "Unknown Title" then ["title"] else []) ++
  (if m.authors = [] then ["authors"] else []) ++
  (if m.publication_date = none ∧ optIntTruthy m.publication_year = false then
    ["publication_date"] else []) ++
  (if optStrTruthy m.publisher = false then ["publisher"] else []) ++
  (if optStrTruthy m.cover_image_url = false then ["cover_image"] else []) ++
  (if optStrTruthy m.description = false then ["description"] else [])

/-- Pydantic `validate_authors`: keep truthy strings, strip, drop blanks
and over-long names. -/
def cleanAuthors (l : List String) : List String :=
  l.filterMap (fun a =>
    if a ≠ "" then
      (if pyStrip a ≠ "" ∧ (pyStrip a).length ≤ 200 then some (pyStrip a) else none)
    else none)

/-- Python `str.lower()` (ASCII). -/
def pyLower (s : String) : String :=
  String.mk (s.data.map Char.toLower)

/-- Pydantic `validate_subjects` loop: deduplicate case-insensitively on
the stripped form, keep the original (stripped) casing. -/
def cleanSubjectsAux (seen : List String) : List String → List String
  | [] => []
  | s :: rest =>
    if s ≠ "" then
      (if pyLower (pyStrip s) ≠ "" ∧ pyLower (pyStrip s) ∉ seen ∧
          (pyLower (pyStrip s)).length ≤ 100 then
        pyStrip s :: cleanSubjectsAux (pyLower (pyStrip s) :: seen) rest
      else cleanSubjectsAux seen rest)
    else cleanSubjectsAux seen rest

/-- Pydantic `validate_subjects`: clean, deduplicate, cap at 10. -/
def cleanSubjects (l : List String) : List String :=
  (cleanSubjectsAux [] l).take 10

def pyStartsWith (pre s : String) : Bool :=
  List.isPrefixOf pre.data s.data

/-- Pydantic `validate_cover_url`: require an http(s) scheme and at most
500 characters, else `None`. -/
def validateCoverUrl : Option String → Option String
  | none => none
  | some v =>
    if v = "" then none
    else if ¬(pyStartsWith "http://" v || pyStartsWith "https://" v) then none
    else if 500 < v.length then none
    else some v

/-- `title=ol_details.title or "Unknown Title"`. -/
def olTitle : Option String → String
  | some t => if t ≠ "" then t else "Unknown Title"
  | none => "Unknown Title"

/-- The record built by `BookMetadata.from_openlibrary` before pydantic's
range validators run. -/
def fromOpenLibraryRecord (isbn : String) (ol : OpenLibraryBookDetails) : BookMetadata :=
  let pub_year := get_publication_year ol
  let pub_date : Option PyDate :=
    if optIntTruthy pub_year ∧ optStrTruthy ol.publish_date = true then
      (if 4 ≤ (ol.publish_date.getD "").length then
        pub_year.map (fun y => ⟨y, 1, 1⟩)
      else none)
    else none
  { isbn_13 := isbn
    title := olTitle ol.title
    subtitle := ol.subtitle
    authors := cleanAuthors (get_author_names ol)
    publication_date := pub_date
    publication_year := pub_year
    publisher := ol.publishers.head?
    publishers := ol.publishers
    page_count := ol.number_of_pages
    cover_image_url := validateCoverUrl (get_cover_url ol "L")
    description := ol.description
    subjects := cleanSubjects ol.subjects
    isbn_10 := get_primary_isbn_10 ol
    source := "openlibrary" }

/-- Pydantic `max_length` violation on an optional string field. -/
def optLenOver (lim : Nat) : Option String → Bool
  | some s => lim < s.length
  | none => false

/-- Pydantic `ge=1, le=10000` violation on `page_count`. -/
def pageCountBad : Option Int → Bool
  | some n => n < 1 || 10000 < n
  | none => false

/-- `validate_publication_date`: year outside `[1450, now.year + 2]`. -/
def dateOutOfRange (currentYear : Int) : Option PyDate → Bool
  | some d => d.year < 1450 || currentYear + 2 < d.year
  | none => false

/-- `validate_publication_year`: year outside `[1450, now.year + 2]`. -/
def yearOutOfRange (currentYear : Int) : Option Int → Bool
  | some y => y < 1450 || currentYear + 2 < y
  | none => false

/-- `BookMetadata.from_openlibrary`: build the record and run pydantic's
raising validators (title/subtitle/publisher lengths, page-count and
publication-date/year ranges), then attach `calculate_quality_score`.
`currentYear` stands for `datetime.now().year`. -/
def from_openlibrary (currentYear : Int) (isbn : String)
    (ol : OpenLibraryBookDetails) : Except String BookMetadata :=
  let md := fromOpenLibraryRecord isbn ol
  if ¬(1 ≤ md.title.length ∧ md.title.length ≤ 500) then
    .error "ValidationError: title"
  else if optLenOver 200 md.subtitle then
    .error "ValidationError: subtitle"
  else if optLenOver 200 md.publisher then
    .error "ValidationError: publisher"
  else if pageCountBad md.page_count then
    .error "ValidationError: page_count"
  else if dateOutOfRange currentYear md.publication_date then
    .error "ValidationError: publication_date"
  else if yearOutOfRange currentYear md.publication_year then
    .error "ValidationError: publication_year"
  else .ok { md with quality_score := some (calculate_quality_score md) }

/-- C10: when the upstream details carry no title, the canonical
metadata's title is the placeholder `"Unknown Title"`; the placeholder
counts as a present title for `calculate_completeness_score`
(contributing the full weight 25) although `get_missing_fields` still
reports `"title"` as missing.
(`BookMetadata.from_openlibrary` / `get_missing_fields`,
`ValidationService.calculate_completeness_score`.) -/
theorem unknown_title_c10 (currentYear : Int) (isbn : String)
    (ol : OpenLibraryBookDetails) (hti : ol.title = none) (m : BookMetadata)
    (h : from_openlibrary currentYear isbn ol = .ok m) :
    m.title = "Unknown Title" ∧ fieldCounts m .title = true ∧
    (if fieldCounts m .title then fieldWeight .title else 0) = 25 ∧
    "title" ∈ get_missing_fields m := by
  simp only [from_openlibrary] at h
  split_ifs at h
  have hm : m = { fromOpenLibraryRecord isbn ol with
      quality_score := some (calculate_quality_score (fromOpenLibraryRecord isbn ol)) } := by
    cases h
    rfl
  have htitle : m.title = "Unknown Title" := by
    rw [hm]
    show (fromOpenLibraryRecord isbn ol).title = "Unknown Title"
    simp only [fromOpenLibraryRecord]
    rw [hti]
    rfl
  have hcounts : fieldCounts m ScoreField.title = true := by
    simp only [fieldCounts, htitle]
    decide
  refine ⟨htitle, hcounts, ?_, ?_⟩
  · rw [hcounts]
    rfl
  · unfold get_missing_fields
    rw [if_pos (Or.inr htitle)]
    simp

/-- Witness for C10: details with only a publisher and no title. -/
theorem unknown_title_c10_witness :
    ∃ m, from_openlibrary 2026 "9780134685991" { publishers := ["Acme"] } = .ok m ∧
      m.title = "Unknown Title" ∧ fieldCounts m .title = true ∧
      (if fieldCounts m .title then fieldWeight .title else 0) = 25 ∧
      "title" ∈ get_missing_fields m := by
  refine ⟨_, rfl, ?_⟩
  exact unknown_title_c10 2026 "9780134685991" { publishers := ["Acme"] } rfl _ rfl

/-! ## Enrichment pipeline (`src/services/enrichment_service.py`,
`src/services/validation_service.py`) -/

/-- `EnrichmentStatus` enum (values `pending`, `in_progress`, `success`,
`failed`, `partial`). -/
inductive EnrichmentStatus
  | pending | inProgress | success | failed | partialStatus
deriving DecidableEq, Repr

/-- Python `x or default` on the optional quality threshold: `None` and
`0.0` are falsy and fall back to `settings.ENRICHMENT_MIN_QUALITY_SCORE`
(default `0.6`). -/
def resolveMinQuality (o : Option ℚ) : ℚ :=
  match o with
  | some v => if v = 0 then 0.6 else v
  | none => 0.6

/-- The quality-deciding slice of `_enrich_single_book_enhanced` steps
4–8: map the upstream details to `BookMetadata`, compute the completeness
score, and branch PARTIAL / SUCCESS on
`completeness_score >= min_completeness` (where `min_completeness` is
`min_completeness or settings.ENRICHMENT_MIN_QUALITY_SCORE` inside
`validate_metadata_quality`).  An exception while mapping is caught by
the surrounding `except` and yields FAILED. -/
def enrichQualityOutcome (currentYear : Int) (isbn : String)
    (details : OpenLibraryBookDetails) (jobMinQuality : Option ℚ) :
    EnrichmentStatus × Option ℚ :=
  let min_score := resolveMinQuality jobMinQuality
  match from_openlibrary currentYear isbn details with
  | .error _ => (.failed, none)
  | .ok metadata =>
    let min_completeness := if min_score = 0 then 0.6 else min_score
    let completeness := calculate_completeness_score metadata
    if ¬ (min_completeness ≤ completeness) then (.partialStatus, some completeness)
    else (.success, some completeness)

/-- The metadata the pipeline builds from title-only upstream details. -/
def titleOnlyMetadata : BookMetadata :=
  { isbn_13 := "9780134685991", title := "Test",
    quality_score := some (calculate_quality_score
      { isbn_13 := "9780134685991", title := "Test" }) }

lemma titleOnly_from_openlibrary :
    from_openlibrary 2026 "9780134685991" { title := some "Test" }
      = .ok titleOnlyMetadata := rfl

lemma titleOnly_score : calculate_completeness_score titleOnlyMetadata = 25 := by
  rw [score_eq_achieved]
  simp only [scoreFieldList, List.map_cons, List.map_nil, List.sum_cons, List.sum_nil,
    show fieldCounts titleOnlyMetadata .title = true from rfl,
    show fieldCounts titleOnlyMetadata .authors = false from rfl,
    show fieldCounts titleOnlyMetadata .publicationDate = false from rfl,
    show fieldCounts titleOnlyMetadata .publisher = false from rfl,
    show fieldCounts titleOnlyMetadata .description = false from rfl,
    show fieldCounts titleOnlyMetadata .pageCount = false from rfl,
    show fieldCounts titleOnlyMetadata .language = false from rfl,
    show fieldCounts titleOnlyMetadata .coverImageUrl = false from rfl,
    if_true, Bool.false_eq_true, if_false]
  norm_num [fieldWeight]

/-- C1 (divergence exhibit): with upstream details carrying only the
title `"Test"` and `min_quality_score = 0.8`, the code computes a
completeness score of 25 on the 0–100 scale, compares it against the
0–1-scale threshold 0.8, finds `25 >= 0.8`, and returns SUCCESS with
`quality_score = 25` — not the PARTIAL result with
`quality_score < 0.8` that the claim (and the repository's own test
`test_enrich_book_low_quality`) requires. -/
theorem title_only_success_c1 :
    enrichQualityOutcome 2026 "9780134685991" { title := some "Test" } (some 0.8)
      = (.success, some 25) ∧ ¬((25 : ℚ) < 0.8) := by
  constructor
  · unfold enrichQualityOutcome
    rw [titleOnly_from_openlibrary]
    show (if ¬((if resolveMinQuality (some 0.8) = 0 then (0.6 : ℚ)
          else resolveMinQuality (some 0.8)) ≤
          calculate_completeness_score titleOnlyMetadata) then
        (EnrichmentStatus.partialStatus, some (calculate_completeness_score titleOnlyMetadata))
      else (EnrichmentStatus.success, some (calculate_completeness_score titleOnlyMetadata)))
      = (EnrichmentStatus.success, some 25)
    have hmin : resolveMinQuality (some 0.8) = 0.8 := by
      show (if (0.8 : ℚ) = 0 then (0.6 : ℚ) else 0.8) = 0.8
      rw [if_neg (by norm_num)]
    rw [hmin, titleOnly_score]
    rw [if_neg (show ¬((0.8 : ℚ) = 0) by norm_num)]
    rw [if_neg (show ¬¬((0.8 : ℚ) ≤ 25) by norm_num)]
  · norm_num

/-! ## The orchestrator's exception plumbing
(`BookEnrichmentService.enrich_book`).  The exception outcomes of the
effectful steps are inputs of the embedding; the `try/except` structure
of the code is mirrored by `Except` plumbing, and the catch-all
`except Exception` handler makes the embedded function total. -/

/-- `ErrorCategory` enum. -/
inductive ErrorCategory
  | validationError | apiError | timeoutError | qualityError
  | concurrencyError | unknownError
deriving DecidableEq, Repr

/-- `EnrichmentResult` (the timestamp field is omitted; no embedded
operation reads it). -/
structure EnrichmentResult where
  isbn : String
  status : EnrichmentStatus
  metadata : Option BookMetadata := none
  error : Option String := none
  quality_score : Option ℚ := none
  sources_used : List String := []
  processing_time : Option ℚ := none
  correlation_id : String := ""
deriving DecidableEq, Repr

/-- The job-tracking state `enrich_book` mutates: the `EnrichmentJob`
fields the claims read, plus whether the job still sits in the
active-jobs map (`active`) and has been moved to the history buffer
(`archived`). -/
structure JobState where
  isbn : String
  status : EnrichmentStatus
  errorMessage : Option String := none
  errorCategory : Option ErrorCategory := none
  active : Bool
  archived : Bool
deriving DecidableEq, Repr

/-- `EnrichmentJob.set_error`. -/
def setJobError (j : JobState) (msg : String) (cat : ErrorCategory) : JobState :=
  { j with errorMessage := some msg, errorCategory := some cat, status := .failed }

/-- `_complete_job`: append to history, remove from the active map. -/
def completeJob (j : JobState) : JobState :=
  { j with archived := true, active := false }

/-- What the awaited sub-flow of step 4 does: returns a result
(`_enrich_single_book_enhanced` itself catches its exceptions), hits the
`asyncio.wait_for` timeout, or lets an exception escape. -/
inductive SubOutcome
  | completed (r : EnrichmentResult)
  | timedOut
  | raised (msg : String)
deriving Repr

/-- Exception outcomes of the effectful steps of one `enrich_book` call,
plus the measured elapsed time and the configured timeout. -/
structure EnrichInputs where
  ensureServices : Except String Unit
  validation : Except String String
  subFlow : SubOutcome
  elapsed : ℚ
  timeoutSeconds : ℚ

/-- The `try:` block of `enrich_book`: `_ensure_services`, ISBN
validation (its `ValidationError` is caught by the inner
`except ValidationError`), then the semaphore/timeout-guarded sub-flow.
An `Except.error` is an exception reaching the outer handler; it carries
the job state at that point. -/
def enrichTryBody (correlationId : String) (job1 : JobState) (inp : EnrichInputs) :
    Except (String × JobState) (EnrichmentResult × JobState) :=
  match inp.ensureServices with
  | .error e => .error (e, job1)
  | .ok _ =>
    match inp.validation with
    | .error e =>
      let job2 := setJobError job1 e .validationError
      .ok ({ isbn := job2.isbn, status := .failed, error := some e,
             correlation_id := correlationId }, completeJob job2)
    | .ok normalized =>
      let job2 := { job1 with isbn := normalized }
      match inp.subFlow with
      | .completed r =>
        .ok ({ r with processing_time := some inp.elapsed }, completeJob job2)
      | .timedOut =>
        let msg := "Enrichment timeout after " ++ toString inp.timeoutSeconds ++ "s"
        let job3 := setJobError job2 msg .timeoutError
        .ok ({ isbn := job2.isbn, status := .failed, error := some msg,
               correlation_id := correlationId, processing_time := some inp.elapsed },
             completeJob job3)
      | .raised e => .error (e, job2)

/-- `enrich_book`: create and register the job, run the `try:` body, and
convert anything the outer `except Exception` catches into a FAILED
result with message `"Unexpected error: <cause>"`, archiving the job on
every path.  Totality of this function is the embedded form of "never
propagates an exception". -/
def enrich_book_model (isbn correlationId : String) (inp : EnrichInputs) :
    EnrichmentResult × JobState :=
  let job1 : JobState := { isbn := isbn, status := .inProgress,
                           active := true, archived := false }
  match enrichTryBody correlationId job1 inp with
  | .ok out => out
  | .error (e, job) =>
    let msg := "Unexpected error: " ++ e
    let jobE := setJobError job msg .unknownError
    ({ isbn := job.isbn, status := .failed, error := some msg,
       correlation_id := correlationId, processing_time := some inp.elapsed },
     completeJob jobE)

/-- C2: `enrich_book` always returns a result with the job archived (and
off the active map) first, and any exception that reaches the outer
handler — whether before validation or out of the sub-flow — produces a
FAILED result whose message is `"Unexpected error: <cause>"`.
(`BookEnrichmentService.enrich_book`,
`BookEnrichmentService._complete_job`.) -/
theorem enrich_book_total_c2 (isbn correlationId : String) (inp : EnrichInputs) :
    ((enrich_book_model isbn correlationId inp).2.archived = true ∧
     (enrich_book_model isbn correlationId inp).2.active = false) ∧
    (∀ e, inp.ensureServices = .error e →
      (enrich_book_model isbn correlationId inp).1.status = .failed ∧
      (enrich_book_model isbn correlationId inp).1.error
        = some ("Unexpected error: " ++ e)) ∧
    (∀ n e, inp.ensureServices = .ok () → inp.validation = .ok n →
      inp.subFlow = .raised e →
      (enrich_book_model isbn correlationId inp).1.status = .failed ∧
      (enrich_book_model isbn correlationId inp).1.error
        = some ("Unexpected error: " ++ e)) := by
  obtain ⟨ens, val, sub, el, ts⟩ := inp
  refine ⟨?_, ?_, ?_⟩
  · cases ens with
    | error e => exact ⟨rfl, rfl⟩
    | ok u =>
      cases val with
      | error e => exact ⟨rfl, rfl⟩
      | ok n =>
        cases sub with
        | completed r => exact ⟨rfl, rfl⟩
        | timedOut => exact ⟨rfl, rfl⟩
        | raised e => exact ⟨rfl, rfl⟩
  · intro e he
    cases ens with
    | error e0 =>
      injection he with he2
      subst he2
      exact ⟨rfl, rfl⟩
    | ok u => exact Except.noConfusion he
  · intro n e hok hv hs
    cases ens with
    | error e0 => exact Except.noConfusion hok
    | ok u =>
      cases val with
      | error e0 => exact Except.noConfusion hv
      | ok n0 =>
        cases sub with
        | completed r => exact SubOutcome.noConfusion hs
        | timedOut => exact SubOutcome.noConfusion hs
        | raised e0 =>
          injection hs with hs2
          subst hs2
          exact ⟨rfl, rfl⟩

/-- Witness for C2: an exception `boom` escaping the sub-flow becomes a
FAILED result with message `Unexpected error: boom`, and the job is
archived. -/
theorem enrich_book_total_c2_witness :
    ((enrich_book_model "9780134685991" "corr"
        ⟨.ok (), .ok "9780134685991", .raised "boom", 1, 10⟩).2.archived = true ∧
     (enrich_book_model "9780134685991" "corr"
        ⟨.ok (), .ok "9780134685991", .raised "boom", 1, 10⟩).2.active = false) ∧
    ((enrich_book_model "9780134685991" "corr"
        ⟨.ok (), .ok "9780134685991", .raised "boom", 1, 10⟩).1.status = .failed ∧
     (enrich_book_model "9780134685991" "corr"
        ⟨.ok (), .ok "9780134685991", .raised "boom", 1, 10⟩).1.error
        = some ("Unexpected error: " ++ "boom")) :=
  ⟨(enrich_book_total_c2 "9780134685991" "corr"
      ⟨.ok (), .ok "9780134685991", .raised "boom", 1, 10⟩).1,
   (enrich_book_total_c2 "9780134685991" "corr"
      ⟨.ok (), .ok "9780134685991", .raised "boom", 1, 10⟩).2.2
      "9780134685991" "boom" rfl rfl rfl⟩

/-! ## Batch enrichment (`BookEnrichmentService.batch_enrich_books`).
`asyncio.gather` stores each task's outcome at the task's index as the
tasks complete; the completion order is an arbitrary permutation of the
indices, and the result list is read off in index order. -/

/-- The synthetic FAILED result built for a per-ISBN exception
(`EnrichmentResult(isbn=isbn, status=FAILED, error=str(result))`). -/
def syntheticFailed (isbn msg : String) : EnrichmentResult :=
  { isbn := isbn, status := .failed, error := some msg }

/-- The slot table `asyncio.gather` fills: each completing task writes
its outcome (a result, or the exception captured by
`return_exceptions=True`) at its own index. -/
def gatherFill (outcome : Nat → Except String EnrichmentResult) (order : List Nat) :
    Nat → Option (Except String EnrichmentResult) :=
  order.foldl (fun acc i => fun j => if j = i then some (outcome i) else acc j)
    (fun _ => none)

/-- `asyncio.gather(*tasks, return_exceptions=True)`: outcomes in task
order, whatever the completion order was. -/
def asyncGatherModel (n : Nat) (order : List Nat)
    (outcome : Nat → Except String EnrichmentResult) :
    List (Except String EnrichmentResult) :=
  (List.range n).map (fun i => (gatherFill outcome order i).getD (.error "pending"))

/-- `batch_enrich_books` result assembly: zip the input ISBNs with the
gathered outcomes and convert an exception into a synthetic FAILED
result at that ISBN's position. -/
def batch_enrich_books_model (isbns : List String) (order : List Nat)
    (outcome : Nat → Except String EnrichmentResult) : List EnrichmentResult :=
  (isbns.zip (asyncGatherModel isbns.length order outcome)).map (fun p =>
    match p.2 with
    | .ok r => r
    | .error e => syntheticFailed p.1 e)

lemma gatherFill_go (outcome : Nat → Except String EnrichmentResult) (order : List Nat)
    (acc : Nat → Option (Except String EnrichmentResult)) (j : Nat) :
    (order.foldl (fun acc i => fun j' => if j' = i then some (outcome i) else acc j') acc) j
      = if j ∈ order then some (outcome j) else acc j := by
  induction order generalizing acc with
  | nil => simp
  | cons i rest ih =>
    simp only [List.foldl_cons]
    rw [ih]
    by_cases hj : j ∈ rest
    · rw [if_pos hj, if_pos (List.mem_cons_of_mem i hj)]
    · rw [if_neg hj]
      by_cases hji : j = i
      · subst hji
        simp
      · rw [if_neg hji, if_neg (by simp [hji, hj])]

lemma gatherFill_of_mem {outcome : Nat → Except String EnrichmentResult}
    {order : List Nat} {j : Nat} (hj : j ∈ order) :
    gatherFill outcome order j = some (outcome j) := by
  unfold gatherFill
  rw [gatherFill_go, if_pos hj]

/-- C3: for every input ISBN list and every completion order (any
permutation of the task indices), `batch_enrich_books` returns exactly
one result per ISBN, the i-th result belongs to the i-th input ISBN, and
a per-ISBN exception is converted into a synthetic FAILED result at that
position.  (`BookEnrichmentService.batch_enrich_books`.) -/
theorem batch_order_c3 (isbns : List String) (order : List Nat)
    (outcome : Nat → Except String EnrichmentResult)
    (hperm : order.Perm (List.range isbns.length)) :
    (batch_enrich_books_model isbns order outcome).length = isbns.length ∧
    ∀ i (hi : i < isbns.length)
      (hi2 : i < (batch_enrich_books_model isbns order outcome).length),
      (batch_enrich_books_model isbns order outcome).get ⟨i, hi2⟩ =
        match outcome i with
        | .ok r => r
        | .error e => syntheticFailed (isbns.get ⟨i, hi⟩) e := by
  have hglen : (asyncGatherModel isbns.length order outcome).length = isbns.length := by
    simp [asyncGatherModel]
  have hlen : (batch_enrich_books_model isbns order outcome).length = isbns.length := by
    simp [batch_enrich_books_model, hglen]
  refine ⟨hlen, ?_⟩
  intro i hi hi2
  have hmem : i ∈ order := (hperm.mem_iff).mpr (List.mem_range.mpr hi)
  have hzlen : i < (isbns.zip (asyncGatherModel isbns.length order outcome)).length := by
    simp [hglen]
    omega
  have hzip : (isbns.zip (asyncGatherModel isbns.length order outcome)).get ⟨i, hzlen⟩
      = (isbns.get ⟨i, hi⟩,
         (asyncGatherModel isbns.length order outcome).get ⟨i, by rw [hglen]; exact hi⟩) := by
    apply List.get_zip
  have hgath : (asyncGatherModel isbns.length order outcome).get ⟨i, by rw [hglen]; exact hi⟩
      = outcome i := by
    simp only [asyncGatherModel]
    rw [List.get_map]
    rw [show (List.range isbns.length).get ⟨i, by simpa using hi⟩ = i by
      simp [List.get_range]]
    rw [gatherFill_of_mem hmem]
    rfl
  show ((isbns.zip (asyncGatherModel isbns.length order outcome)).map _).get ⟨i, hi2⟩ = _
  rw [List.get_map, hzip]
  simp only []
  rw [hgath]

/-- Witness for C3: the spec's batch scenario — a valid and an invalid
ISBN, with the second task completing first; the results stay in input
order and the exception at index 1 becomes a synthetic FAILED result. -/
theorem batch_order_c3_witness :
    (batch_enrich_books_model ["9780134685991", "invalid-isbn"] [1, 0]
        (fun i => if i = 0 then
          .ok { isbn := "9780134685991", status := .success }
        else .error "Invalid ISBN format: invalid-isbn")).length = 2 ∧
    (batch_enrich_books_model ["9780134685991", "invalid-isbn"] [1, 0]
        (fun i => if i = 0 then
          .ok { isbn := "9780134685991", status := .success }
        else .error "Invalid ISBN format: invalid-isbn")).get? 1
      = some (syntheticFailed "invalid-isbn" "Invalid ISBN format: invalid-isbn") := by
  have h := batch_order_c3 ["9780134685991", "invalid-isbn"] [1, 0]
    (fun i => if i = 0 then
      .ok { isbn := "9780134685991", status := .success }
    else .error "Invalid ISBN format: invalid-isbn")
    (by decide)
  refine ⟨h.1, ?_⟩
  have h1 := h.2 1 (by norm_num) (by rw [h.1]; norm_num)
  rw [List.get?_eq_get (by rw [h.1]; norm_num), h1]
  rfl

/-! ## Transport-level retry (`BaseHTTPClient._retry_request`,
`src/clients/base_client.py`).  What attempt number `k` does is an input
of the embedding: an HTTP response of some status, a network-class
failure (`httpx.TimeoutException` / `ConnectError` / `ReadError`), or
any other exception. -/

inductive AttemptOutcome
  | response (status : Nat)
  | netErr (msg : String)
  | otherErr (msg : String)
deriving DecidableEq, Repr

/-- One run of `_retry_request`: its returned-or-raised outcome, the
number of attempts actually sent, and the backoff sleeps performed (in
seconds, in order). -/
structure RetryRun where
  result : Except String Nat
  attempts : Nat
  sleeps : List Nat
deriving Repr

/-- The `for attempt in range(max_retries + 1)` loop: before attempt
`k > 0` sleep `2^(k-1)`; a response returns immediately (whatever the
status); a network-class failure records `last_exception` and continues
unless attempts are exhausted; any other exception re-raises at once.
After the loop, `raise last_exception` (the guard
`or RequestError(...)` is unreachable: the loop always runs and only
falls through after a network failure). -/
def retryGo (outcome : Nat → AttemptOutcome) :
    Nat → Nat → Option String → RetryRun
  | _, 0, last =>
    { result := .error (last.getD "All retry attempts failed"), attempts := 0, sleeps := [] }
  | attempt, r + 1, _ =>
    let s := if 0 < attempt then [2 ^ (attempt - 1)] else []
    match outcome attempt with
    | .response status => { result := .ok status, attempts := 1, sleeps := s }
    | .otherErr e => { result := .error e, attempts := 1, sleeps := s }
    | .netErr e =>
      let rest := retryGo outcome (attempt + 1) r (some e)
      { result := rest.result, attempts := rest.attempts + 1, sleeps := s ++ rest.sleeps }

/-- `_retry_request` with `max_retries`: up to `max_retries + 1` attempts
starting at attempt 0. -/
def retry_request (outcome : Nat → AttemptOutcome) (maxRetries : Nat) : RetryRun :=
  retryGo outcome 0 (maxRetries + 1) none

lemma retryGo_attempts_le (outcome : Nat → AttemptOutcome) :
    ∀ r a last, (retryGo outcome a r last).attempts ≤ r := by
  intro r
  induction r with
  | zero =>
    intro a last
    simp [retryGo]
  | succ r ih =>
    intro a last
    cases ho : outcome a with
    | response st => simp [retryGo, ho]
    | otherErr e => simp [retryGo, ho]
    | netErr e =>
      have hrec := ih (a + 1) (some e)
      have hshape : (retryGo outcome a (r + 1) last).attempts
          = (retryGo outcome (a + 1) r (some e)).attempts + 1 := by
        simp [retryGo, ho]
      omega

lemma retryGo_pre_net (outcome : Nat → AttemptOutcome) :
    ∀ r a last k, k + 1 < (retryGo outcome a r last).attempts →
      ∃ e, outcome (a + k) = .netErr e := by
  intro r
  induction r with
  | zero =>
    intro a last k hk
    simp [retryGo] at hk
  | succ r ih =>
    intro a last k hk
    unfold retryGo at hk
    cases ho : outcome a with
    | response st => rw [ho] at hk; simp at hk
    | otherErr e => rw [ho] at hk; simp at hk
    | netErr e =>
      rw [ho] at hk
      simp only [] at hk
      cases k with
      | zero => exact ⟨e, by simpa using ho⟩
      | succ k2 =>
        have := ih (a + 1) (some e) k2 (by omega)
        obtain ⟨e2, he2⟩ := this
        exact ⟨e2, by rw [show a + (k2 + 1) = a + 1 + k2 by omega]; exact he2⟩

lemma retryGo_sleeps (outcome : Nat → AttemptOutcome) :
    ∀ r a last, 1 ≤ a →
      (retryGo outcome a r last).sleeps =
        (List.range (retryGo outcome a r last).attempts).map (fun i => 2 ^ (a - 1 + i)) := by
  intro r
  induction r with
  | zero =>
    intro a last ha
    simp [retryGo]
  | succ r ih =>
    intro a last ha
    cases ho : outcome a with
    | response st =>
      have h1 : (retryGo outcome a (r + 1) last).sleeps = [2 ^ (a - 1)] := by
        simp [retryGo, ho, if_pos (show 0 < a by omega)]
      have h2 : (retryGo outcome a (r + 1) last).attempts = 1 := by
        simp [retryGo, ho]
      rw [h1, h2]
      rw [show List.range 1 = [0] from rfl]
      simp
    | otherErr e =>
      have h1 : (retryGo outcome a (r + 1) last).sleeps = [2 ^ (a - 1)] := by
        simp [retryGo, ho, if_pos (show 0 < a by omega)]
      have h2 : (retryGo outcome a (r + 1) last).attempts = 1 := by
        simp [retryGo, ho]
      rw [h1, h2]
      rw [show List.range 1 = [0] from rfl]
      simp
    | netErr e =>
      have h1 : (retryGo outcome a (r + 1) last).sleeps
          = 2 ^ (a - 1) :: (retryGo outcome (a + 1) r (some e)).sleeps := by
        simp [retryGo, ho, if_pos (show 0 < a by omega)]
      have h2 : (retryGo outcome a (r + 1) last).attempts
          = (retryGo outcome (a + 1) r (some e)).attempts + 1 := by
        simp [retryGo, ho]
      rw [h1, h2, ih (a + 1) (some e) (by omega)]
      rw [List.range_succ_eq_map, List.map_cons, List.map_map, Nat.add_zero]
      congr 1
      apply List.map_congr_left
      intro i _
      simp only [Function.comp_apply]
      congr 1
      omega

lemma retryGo_stop (outcome : Nat → AttemptOutcome) :
    ∀ k r a last, k < r → (∀ j, j < k → ∃ e, outcome (a + j) = .netErr e) →
      (∀ st, outcome (a + k) = .response st →
        (retryGo outcome a r last).result = .ok st ∧
        (retryGo outcome a r last).attempts = k + 1) ∧
      (∀ e, outcome (a + k) = .otherErr e →
        (retryGo outcome a r last).result = .error e ∧
        (retryGo outcome a r last).attempts = k + 1) := by
  intro k
  induction k with
  | zero =>
    intro r a last hr _
    obtain ⟨r2, rfl⟩ : ∃ r2, r = r2 + 1 := ⟨r - 1, by omega⟩
    constructor
    · intro st hst
      unfold retryGo
      rw [show a + 0 = a by omega] at hst
      rw [hst]
      exact ⟨rfl, rfl⟩
    · intro e he
      unfold retryGo
      rw [show a + 0 = a by omega] at he
      rw [he]
      exact ⟨rfl, rfl⟩
  | succ k2 ih =>
    intro r a last hr hnet
    obtain ⟨r2, rfl⟩ : ∃ r2, r = r2 + 1 := ⟨r - 1, by omega⟩
    obtain ⟨e0, he0⟩ := hnet 0 (by omega)
    rw [show a + 0 = a by omega] at he0
    have hshift : ∀ j, j < k2 → ∃ e, outcome (a + 1 + j) = .netErr e := by
      intro j hj
      obtain ⟨e2, he2⟩ := hnet (j + 1) (by omega)
      exact ⟨e2, by rw [show a + 1 + j = a + (j + 1) by omega]; exact he2⟩
    have ihr := ih r2 (a + 1) (some e0) (by omega) hshift
    constructor
    · intro st hst
      unfold retryGo
      rw [he0]
      simp only []
      have := ihr.1 st (by rw [show a + 1 + k2 = a + (k2 + 1) by omega]; exact hst)
      exact ⟨this.1, by rw [this.2]⟩
    · intro e he
      unfold retryGo
      rw [he0]
      simp only []
      have := ihr.2 e (by rw [show a + 1 + k2 = a + (k2 + 1) by omega]; exact he)
      exact ⟨this.1, by rw [this.2]⟩

lemma retryGo_exhaust (outcome : Nat → AttemptOutcome) :
    ∀ r a last, 1 ≤ r → (∀ j, j < r → ∃ e, outcome (a + j) = .netErr e) →
      ∀ e, outcome (a + (r - 1)) = .netErr e →
        (retryGo outcome a r last).result = .error e := by
  intro r
  induction r with
  | zero => intro a last h1; omega
  | succ r2 ih =>
    intro a last _ hnet e hlast
    obtain ⟨e0, he0⟩ := hnet 0 (by omega)
    rw [show a + 0 = a by omega] at he0
    cases r2 with
    | zero =>
      rw [show a + (1 - 1) = a by omega] at hlast
      rw [he0] at hlast
      injection hlast with hh
      subst hh
      unfold retryGo
      rw [he0]
      rfl
    | succ r3 =>
      unfold retryGo
      rw [he0]
      simp only []
      apply ih (a + 1) (some e0) (by omega)
      · intro j hj
        obtain ⟨e2, he2⟩ := hnet (j + 1) (by omega)
        exact ⟨e2, by rw [show a + 1 + j = a + (j + 1) by omega]; exact he2⟩
      · rw [show a + 1 + (r3 + 1 - 1) = a + (r3 + 2 - 1) by omega]
        exact hlast

/-- C5: `_retry_request` makes at most `max_retries + 1` attempts; every
attempt before a later one failed with a network-class error (so no
retry ever follows an HTTP response); the sleep before attempt `n` is
`2^(n-1)` seconds; a response or a non-network exception at attempt `k`
ends the run at `k + 1` attempts, returning the response or re-raising
the exception immediately; and when every attempt fails with a
network-class error, the last such exception is re-raised.
(`BaseHTTPClient._retry_request`.) -/
theorem retry_policy_c5 (outcome : Nat → AttemptOutcome) (maxRetries : Nat) :
    (retry_request outcome maxRetries).attempts ≤ maxRetries + 1 ∧
    (∀ k, k + 1 < (retry_request outcome maxRetries).attempts →
      ∃ e, outcome k = .netErr e) ∧
    (retry_request outcome maxRetries).sleeps =
      (List.range ((retry_request outcome maxRetries).attempts - 1)).map (fun i => 2 ^ i) ∧
    (∀ k st, (∀ j, j < k → ∃ e, outcome j = .netErr e) → k ≤ maxRetries →
      outcome k = .response st →
      (retry_request outcome maxRetries).result = .ok st ∧
      (retry_request outcome maxRetries).attempts = k + 1) ∧
    (∀ k e, (∀ j, j < k → ∃ e2, outcome j = .netErr e2) → k ≤ maxRetries →
      outcome k = .otherErr e →
      (retry_request outcome maxRetries).result = .error e ∧
      (retry_request outcome maxRetries).attempts = k + 1) ∧
    ((∀ j, j ≤ maxRetries → ∃ e, outcome j = .netErr e) →
      ∀ e, outcome maxRetries = .netErr e →
      (retry_request outcome maxRetries).result = .error e) := by
  refine ⟨retryGo_attempts_le outcome (maxRetries + 1) 0 none, ?_, ?_, ?_, ?_, ?_⟩
  · intro k hk
    have := retryGo_pre_net outcome (maxRetries + 1) 0 none k hk
    simpa using this
  · cases ho : outcome 0 with
    | response st =>
      have h1 : (retry_request outcome maxRetries).sleeps = [] := by
        simp [retry_request, retryGo, ho]
      have h2 : (retry_request outcome maxRetries).attempts = 1 := by
        simp [retry_request, retryGo, ho]
      rw [h1, h2]
      simp
    | otherErr e =>
      have h1 : (retry_request outcome maxRetries).sleeps = [] := by
        simp [retry_request, retryGo, ho]
      have h2 : (retry_request outcome maxRetries).attempts = 1 := by
        simp [retry_request, retryGo, ho]
      rw [h1, h2]
      simp
    | netErr e =>
      have h1 : (retry_request outcome maxRetries).sleeps
          = (retryGo outcome 1 maxRetries (some e)).sleeps := by
        simp [retry_request, retryGo, ho]
      have h2 : (retry_request outcome maxRetries).attempts
          = (retryGo outcome 1 maxRetries (some e)).attempts + 1 := by
        simp [retry_request, retryGo, ho]
      rw [h1, h2, retryGo_sleeps outcome maxRetries 1 (some e) (by omega)]
      simp
  · intro k st hnet hk hst
    have := (retryGo_stop outcome k (maxRetries + 1) 0 none (by omega)
      (by simpa using hnet)).1 st (by simpa using hst)
    exact this
  · intro k e hnet hk he
    have := (retryGo_stop outcome k (maxRetries + 1) 0 none (by omega)
      (by simpa using hnet)).2 e (by simpa using he)
    exact this
  · intro hnet e hlast
    apply retryGo_exhaust outcome (maxRetries + 1) 0 none (by omega)
    · intro j hj
      simpa using hnet j (by omega)
    · simpa using hlast

/-- Witness for C5 with `max_retries = 3` and a network failure on the
first two attempts followed by a 503 response: three attempts, sleeps
`[1, 2]`, and the 503 is returned, not retried. -/
theorem retry_policy_c5_witness :
    (retry_request
      (fun k => if k < 2 then .netErr "timeout" else .response 503) 3).attempts ≤ 4 ∧
    (retry_request
      (fun k => if k < 2 then .netErr "timeout" else .response 503) 3).result = .ok 503 ∧
    (retry_request
      (fun k => if k < 2 then .netErr "timeout" else .response 503) 3).attempts = 3 ∧
    (retry_request
      (fun k => if k < 2 then .netErr "timeout" else .response 503) 3).sleeps = [1, 2] := by
  have h := retry_policy_c5
    (fun k => if k < 2 then .netErr "timeout" else .response 503) 3
  have hstop := h.2.2.2.1 2 503
    (fun j hj => ⟨"timeout", by simp [hj]⟩) (by norm_num) (by norm_num)
  refine ⟨h.1, hstop.1, hstop.2, ?_⟩
  rw [h.2.2.1, hstop.2]
  rfl

/-! ## Response cache (`ExternalAPIService._get_cached_response`,
`CacheEntry.is_expired`; `src/services/external_api_service.py`).
The dict `_response_cache` is modelled as an association list with
distinct keys; `datetime` instants are rationals. -/

structure CacheEntry (α : Type) where
  data : α
  timestamp : ℚ
  ttl_seconds : Int
deriving Repr

/-- `CacheEntry.is_expired`: `now > timestamp + timedelta(seconds=ttl)`. -/
def CacheEntry.is_expired {α : Type} (e : CacheEntry α) (now : ℚ) : Bool :=
  e.timestamp + (e.ttl_seconds : ℚ) < now

/-- `del self._response_cache[cache_key]`. -/
def eraseKey {α : Type} (cache : List (String × CacheEntry α)) (key : String) :
    List (String × CacheEntry α) :=
  cache.filter (fun p => p.1 ≠ key)

/-- `_get_cached_response`: miss on an absent key; lazily evict and miss
on an expired entry; otherwise return the cached data, cache unchanged. -/
def getCachedResponse {α : Type} (cache : List (String × CacheEntry α)) (key : String)
    (now : ℚ) : Option α × List (String × CacheEntry α) :=
  match cache.lookup key with
  | none => (none, cache)
  | some entry =>
    if entry.is_expired now then (none, eraseKey cache key)
    else (some entry.data, cache)

lemma lookup_none_of_not_mem {α : Type} (key : String)
    (l : List (String × CacheEntry α)) (h : key ∉ l.map Prod.fst) :
    l.lookup key = none := by
  induction l with
  | nil => rfl
  | cons p rest ih =>
    simp only [List.map_cons, List.mem_cons, not_or] at h
    simp only [List.lookup, beq_eq_false_iff_ne.mpr h.1]
    exact ih h.2

lemma eraseKey_parts {α : Type} {cache : List (String × CacheEntry α)} {key : String}
    {e : CacheEntry α} (hnd : (cache.map Prod.fst).Nodup)
    (hl : cache.lookup key = some e) :
    (eraseKey cache key).length + 1 = cache.length ∧
    (eraseKey cache key).lookup key = none := by
  induction cache with
  | nil => simp [List.lookup] at hl
  | cons p rest ih =>
    simp only [List.map_cons, List.nodup_cons] at hnd
    by_cases hk : p.1 = key
    · have hnot : key ∉ rest.map Prod.fst := by
        rw [← hk]
        exact hnd.1
      have hfix : eraseKey rest key = rest :=
        List.filter_eq_self.mpr (fun q hq => by
          simp only [decide_eq_true_eq]
          intro hq1
          exact hnot (by rw [← hq1]; exact List.mem_map_of_mem Prod.fst hq))
      have herase : eraseKey (p :: rest) key = rest := by
        simp only [eraseKey, List.filter_cons, decide_eq_true_eq]
        rw [if_neg (by simp [hk])]
        exact hfix
      rw [herase]
      exact ⟨by simp, lookup_none_of_not_mem key rest hnot⟩
    · have hlr : rest.lookup key = some e := by
        simpa [List.lookup, beq_eq_false_iff_ne.mpr (fun hh => hk hh.symm)] using hl
      have ihr := ih hnd.2 hlr
      have herase : eraseKey (p :: rest) key = p :: eraseKey rest key := by
        simp only [eraseKey, List.filter_cons]
        rw [if_pos (by simp [hk])]
      rw [herase]
      constructor
      · simp only [List.length_cons]
        omega
      · simp only [List.lookup, beq_eq_false_iff_ne.mpr (fun hh => hk hh.symm)]
        exact ihr.2

/-- C9: on a cache whose keys are distinct, looking up a key whose entry
has outlived its TTL (`now > timestamp + ttl`) returns `None` and evicts
exactly that entry (the size shrinks by one and a repeated lookup
misses); an entry within its TTL is returned unchanged, with the cache
untouched.  (`ExternalAPIService._get_cached_response`,
`CacheEntry.is_expired`.) -/
theorem cache_expiry_c9 {α : Type} (cache : List (String × CacheEntry α)) (key : String)
    (e : CacheEntry α) (now : ℚ) (hnd : (cache.map Prod.fst).Nodup)
    (hl : cache.lookup key = some e) :
    (e.timestamp + (e.ttl_seconds : ℚ) < now →
      getCachedResponse cache key now = (none, eraseKey cache key) ∧
      (eraseKey cache key).length + 1 = cache.length ∧
      (eraseKey cache key).lookup key = none ∧
      (getCachedResponse (eraseKey cache key) key now).1 = none) ∧
    (now ≤ e.timestamp + (e.ttl_seconds : ℚ) →
      getCachedResponse cache key now = (some e.data, cache)) := by
  have hparts := eraseKey_parts hnd hl
  constructor
  · intro hexp
    have hexpired : e.is_expired now = true := by
      simp [CacheEntry.is_expired, hexp]
    refine ⟨?_, hparts.1, hparts.2, ?_⟩
    · unfold getCachedResponse
      rw [hl]
      show (if e.is_expired now = true then (none, eraseKey cache key)
            else (some e.data, cache)) = (none, eraseKey cache key)
      rw [hexpired]
      simp
    · unfold getCachedResponse
      rw [hparts.2]
  · intro hfresh
    have hexpired : e.is_expired now = false := by
      simp only [CacheEntry.is_expired, decide_eq_false_iff_not, not_lt]
      exact hfresh
    unfold getCachedResponse
    rw [hl]
    show (if e.is_expired now = true then (none, eraseKey cache key)
          else (some e.data, cache)) = (some e.data, cache)
    rw [hexpired]
    simp

/-- Witness for C9 on a two-entry cache: the entry under `k1` is expired
at `now = 200` (timestamp 100, TTL 50) and is evicted; at `now = 120` it
is still served. -/
theorem cache_expiry_c9_witness :
    (getCachedResponse
        [("k1", ⟨"v1", 100, 50⟩), ("k2", ⟨"v2", 100, 500⟩)] "k1" 200
      = (none, [("k2", ⟨"v2", 100, 500⟩)]) ∧
     ([("k2", (⟨"v2", 100, 500⟩ : CacheEntry String))] : List (String × CacheEntry String)).length + 1 = 2 ∧
     ([("k2", (⟨"v2", 100, 500⟩ : CacheEntry String))].lookup "k1"
        = (none : Option (CacheEntry String)))) ∧
    getCachedResponse
        [("k1", ⟨"v1", 100, 50⟩), ("k2", ⟨"v2", 100, 500⟩)] "k1" 120
      = (some "v1", [("k1", ⟨"v1", 100, 50⟩), ("k2", ⟨"v2", 100, 500⟩)]) := by
  have h200 := cache_expiry_c9
    [("k1", (⟨"v1", 100, 50⟩ : CacheEntry String)), ("k2", ⟨"v2", 100, 500⟩)]
    "k1" ⟨"v1", 100, 50⟩ 200 (by simp) (by rfl)
  have h120 := cache_expiry_c9
    [("k1", (⟨"v1", 100, 50⟩ : CacheEntry String)), ("k2", ⟨"v2", 100, 500⟩)]
    "k1" ⟨"v1", 100, 50⟩ 120 (by simp) (by rfl)
  have hexp := h200.1 (by norm_num)
  refine ⟨⟨?_, ?_, ?_⟩, h120.2 (by norm_num)⟩
  · rw [hexp.1]
    rfl
  · exact hexp.2.1
  · exact hexp.2.2.1

/-! ## OpenLibrary client (`OpenLibraryClient.fetch_book_by_isbn`,
`src/clients/openlibrary_client.py`).  The HTTP exchange is an input:
either a transport-level failure (an `httpx.RequestError` surviving the
retry layer) or a response with a status code and a body that parses to
a JSON dict or fails to parse.  The `details` payload is opaque (`α`). -/

structure OLBookEntry (α : Type) where
  details : Option α
deriving DecidableEq, Repr

structure OLHttpResponse (α : Type) where
  status : Nat
  body : Option (List (String × OLBookEntry α))
deriving DecidableEq, Repr

/-- Error taxonomy of the client: `ValidationError`, or
`OpenLibraryError` with its optional status code. -/
inductive OLFetchError
  | validation (msg : String)
  | openLibrary (msg : String) (statusCode : Option Nat)
deriving DecidableEq, Repr

/-- `OpenLibraryClient.fetch_book_by_isbn`: reject a non-13-digit ISBN;
404 → not found; other non-200 → `OpenLibraryError` with the status;
unparseable body → `OpenLibraryError`; absent `ISBN:<isbn>` key or
absent `details` → not found; else the details payload.  A transport
error becomes `OpenLibraryError("Failed to connect ...")`. -/
def fetch_book_by_isbn {α : Type} (isbn : String)
    (transport : Except String (OLHttpResponse α)) : Except OLFetchError (Option α) :=
  if isbn.length ≠ 13 then .error (.validation "ISBN must be 13 digits")
  else if ¬ isbn.data.all pyIsDigit then .error (.validation "ISBN must contain only digits")
  else
    match transport with
    | .error e => .error (.openLibrary ("Failed to connect to OpenLibrary: " ++ e) none)
    | .ok resp =>
      if resp.status = 404 then .ok none
      else if resp.status ≠ 200 then
        .error (.openLibrary ("OpenLibrary API returned " ++ toString resp.status)
          (some resp.status))
      else
        match resp.body with
        | none => .error (.openLibrary "Invalid JSON response from OpenLibrary" none)
        | some data =>
          match data.lookup ("ISBN:" ++ isbn) with
          | none => .ok none
          | some bookData =>
            match bookData.details with
            | none => .ok none
            | some d => .ok (some d)

/-- C4: case analysis of `fetch_book_by_isbn` — a non-13-digit ISBN fails
with a `ValidationError`; status 404, an absent `ISBN:<isbn>` key, and a
missing `details` substructure each return `None` without raising; any
other non-200 status fails with an `OpenLibraryError` carrying the
status; a malformed JSON body fails with an `OpenLibraryError`; and on
success the parsed details are returned.
(`OpenLibraryClient.fetch_book_by_isbn`.) -/
theorem fetch_cases_c4 {α : Type} (isbn : String)
    (transport : Except String (OLHttpResponse α)) :
    (isbn.length ≠ 13 →
      fetch_book_by_isbn isbn transport
        = .error (.validation "ISBN must be 13 digits")) ∧
    (isbn.length = 13 → ¬ isbn.data.all pyIsDigit = true →
      fetch_book_by_isbn isbn transport
        = .error (.validation "ISBN must contain only digits")) ∧
    (∀ resp, isbn.length = 13 → isbn.data.all pyIsDigit = true →
      transport = .ok resp →
      ((resp.status = 404 → fetch_book_by_isbn isbn transport = .ok none) ∧
       (resp.status ≠ 404 → resp.status ≠ 200 →
         fetch_book_by_isbn isbn transport
           = .error (.openLibrary ("OpenLibrary API returned " ++ toString resp.status)
               (some resp.status))) ∧
       (resp.status = 200 → resp.body = none →
         fetch_book_by_isbn isbn transport
           = .error (.openLibrary "Invalid JSON response from OpenLibrary" none)) ∧
       (∀ data, resp.status = 200 → resp.body = some data →
         data.lookup ("ISBN:" ++ isbn) = none →
         fetch_book_by_isbn isbn transport = .ok none) ∧
       (∀ data bd, resp.status = 200 → resp.body = some data →
         data.lookup ("ISBN:" ++ isbn) = some bd → bd.details = none →
         fetch_book_by_isbn isbn transport = .ok none) ∧
       (∀ data bd d, resp.status = 200 → resp.body = some data →
         data.lookup ("ISBN:" ++ isbn) = some bd → bd.details = some d →
         fetch_book_by_isbn isbn transport = .ok (some d)))) := by
  refine ⟨?_, ?_, ?_⟩
  · intro hlen
    simp [fetch_book_by_isbn, hlen]
  · intro hlen hdig
    simp [fetch_book_by_isbn, hlen, hdig]
  · intro resp hlen hdig htr
    subst htr
    refine ⟨?_, ?_, ?_, ?_, ?_, ?_⟩
    · intro h404
      simp [fetch_book_by_isbn, hlen, hdig, h404]
    · intro h404 h200
      simp [fetch_book_by_isbn, hlen, hdig, h404, h200]
    · intro h200 hbody
      simp [fetch_book_by_isbn, hlen, hdig, h200, hbody]
    · intro data h200 hbody hkey
      simp [fetch_book_by_isbn, hlen, hdig, h200, hbody, hkey]
    · intro data bd h200 hbody hkey hdet
      simp [fetch_book_by_isbn, hlen, hdig, h200, hbody, hkey, hdet]
    · intro data bd d h200 hbody hkey hdet
      simp [fetch_book_by_isbn, hlen, hdig, h200, hbody, hkey, hdet]

/-- Witness for C4 over a `String` payload: a short ISBN is rejected; a
404 yields `None`; a 500 carries its status; a malformed body raises; a
present key with missing details yields `None`; a full response yields
the details. -/
theorem fetch_cases_c4_witness :
    fetch_book_by_isbn "123"
        (.ok ({ status := 200, body := none } : OLHttpResponse String))
      = .error (.validation "ISBN must be 13 digits") ∧
    fetch_book_by_isbn "9780134685991"
        (.ok ({ status := 404, body := none } : OLHttpResponse String))
      = .ok none ∧
    fetch_book_by_isbn "9780134685991"
        (.ok ({ status := 500, body := none } : OLHttpResponse String))
      = .error (.openLibrary "OpenLibrary API returned 500" (some 500)) ∧
    fetch_book_by_isbn "9780134685991"
        (.ok ({ status := 200, body := none } : OLHttpResponse String))
      = .error (.openLibrary "Invalid JSON response from OpenLibrary" none) ∧
    fetch_book_by_isbn "9780134685991"
        (.ok ({ status := 200,
                body := some [("ISBN:9780134685991", ⟨none⟩)] } : OLHttpResponse String))
      = .ok none ∧
    fetch_book_by_isbn "9780134685991"
        (.ok ({ status := 200,
                body := some [("ISBN:9780134685991", ⟨some "details"⟩)] } :
          OLHttpResponse String))
      = .ok (some "details") := by
  refine ⟨?_, ?_, ?_, ?_, ?_, ?_⟩
  · exact (fetch_cases_c4 "123" _).1 (by decide)
  · exact ((fetch_cases_c4 "9780134685991" _).2.2 _ (by decide) (by decide) rfl).1 rfl
  · exact ((fetch_cases_c4 "9780134685991" _).2.2 _ (by decide) (by decide) rfl).2.1
      (by decide) (by decide)
  · exact ((fetch_cases_c4 "9780134685991" _).2.2 _ (by decide) (by decide) rfl).2.2.1
      rfl rfl
  · exact ((fetch_cases_c4 "9780134685991" _).2.2 _ (by decide) (by decide)
      rfl).2.2.2.2.1 _ ⟨none⟩ rfl rfl (by rfl) rfl
  · exact ((fetch_cases_c4 "9780134685991" _).2.2 _ (by decide) (by decide)
      rfl).2.2.2.2.2 _ ⟨some "details"⟩ "details" rfl rfl (by rfl) rfl

end Crawler
